import Mathlib

/-!
# Inbound listener engine of sing-box: a shallow embedding

Embedding of `inbound/default.go` (the adapter `myInboundAdapter`, its start-up,
its four UDP receive loops, the write-back loop and the metadata builder) and of
`Service.Close` from `service.go`.

Conventions of the embedding
* goroutines started by `go f()` are recorded, in program order, in a list of `Loop`s;
* sockets, resolvers and handlers are external: every call to one of them takes its
  outcome from an explicit argument, so each theorem quantifies over all outcomes;
* a buffer is identified by a number; `Release` is recorded by writing that number
  to a list, so "released exactly once" is a statement about that list;
* channels are modelled by their contents: `packetOutbound` is the list of envelopes
  offered by producers and not yet received, `packetOutboundClosed` is a flag;
* informational log lines (`logger.Info`, `logger.Debug` in the listeners) are left
  out; the lines written through the error sink are recorded.
-/

namespace SingBox

/-! ## Errors (package `exceptions` of the sing library) -/

/-- Classification used by `E.IsClosed` and `E.IsClosedOrCanceled`: the closed class
(io.EOF, net.ErrClosed, os.ErrClosed, ...), the cancelled class (context.Canceled,
context.DeadlineExceeded) and every other error. -/
inductive ErrKind where
  | closed
  | canceled
  | other
deriving DecidableEq, Repr

/-- An `error` value: its class and its message. -/
structure GoError where
  kind : ErrKind
  msg : String
deriving DecidableEq, Repr

namespace E

/-- `E.IsClosed(err)`. -/
def IsClosed (err : GoError) : Bool :=
  err.kind == ErrKind.closed

/-- `E.IsClosedOrCanceled(err)`. -/
def IsClosedOrCanceled (err : GoError) : Bool :=
  err.kind == ErrKind.closed || err.kind == ErrKind.canceled

/-- `E.Cause(err, message...)`: wraps `err`; the wrapper unwraps to `err`, so the
class of the cause is kept. -/
def Cause (err : GoError) (message : String) : GoError :=
  { kind := err.kind, msg := message ++ ": " ++ err.msg }

/-- `E.New(message...)`: a fresh error made of the formatted message only. -/
def New (message : String) : GoError :=
  { kind := ErrKind.other, msg := message }

end E

/-- `os.ErrClosed`. -/
def osErrClosed : GoError :=
  { kind := ErrKind.closed, msg := "file already closed" }

/-! ## Addresses (package `metadata` of the sing library, and `net`) -/

/-- An IP address with a port, as carried by `*net.TCPAddr`, `*net.UDPAddr` and
`netip.AddrPort`. -/
structure AddrPort where
  ip : Nat
  port : Nat
deriving DecidableEq, Repr

/-- A `net.Addr` interface value; `none` is the nil interface. -/
abbrev NetAddr := Option AddrPort

/-- `M.Socksaddr`: `Addr` is a `netip.Addr` (`none` is the zero, invalid Addr). -/
structure Socksaddr where
  Addr : Option Nat
  Port : Nat
  Fqdn : String
deriving DecidableEq, Repr

/-- The zero value `M.Socksaddr{}`. -/
def Socksaddr.zero : Socksaddr :=
  { Addr := none, Port := 0, Fqdn := "" }

/-- `Socksaddr.IsValid`: the address is an IP or carries a domain name. -/
def Socksaddr.IsValid (s : Socksaddr) : Bool :=
  s.Addr.isSome || s.Fqdn != ""

/-- `Socksaddr.IsFqdn`: the address has no IP. -/
def Socksaddr.IsFqdn (s : Socksaddr) : Bool :=
  !s.Addr.isSome

/-- `M.SocksaddrFromNet(addr)`. -/
def SocksaddrFromNet (addr : NetAddr) : Socksaddr :=
  match addr with
  | none => Socksaddr.zero
  | some ap => { Addr := some ap.ip, Port := ap.port, Fqdn := "" }

/-- `M.SocksaddrFromNetIP(addrPort)`. -/
def SocksaddrFromNetIP (ap : AddrPort) : Socksaddr :=
  { Addr := some ap.ip, Port := ap.port, Fqdn := "" }

/-- `M.SocksaddrFrom(addr, port)`. -/
def SocksaddrFrom (ip : Nat) (port : Nat) : Socksaddr :=
  { Addr := some ip, Port := port, Fqdn := "" }

/-! ## Connections and `common.Cast` -/

/-- A `net.Conn` interface value. `tcp` is a value of dynamic type `*net.TCPConn`;
`plain` is a value of another connection type that has no `Upstream()` method;
`layered` is a value of another connection type whose `Upstream()` returns `upstream`.
Every connection answers `LocalAddr` and `RemoteAddr` itself. -/
inductive Conn where
  | tcp (localAddr remoteAddr : NetAddr)
  | plain (localAddr remoteAddr : NetAddr)
  | layered (localAddr remoteAddr : NetAddr) (upstream : Conn)
deriving DecidableEq, Repr

/-- `conn.LocalAddr()`. -/
def Conn.LocalAddr : Conn → NetAddr
  | .tcp l _ => l
  | .plain l _ => l
  | .layered l _ _ => l

/-- `conn.RemoteAddr()`. -/
def Conn.RemoteAddr : Conn → NetAddr
  | .tcp _ r => r
  | .plain _ r => r
  | .layered _ r _ => r

/-- `common.Cast[*net.TCPConn](conn)`: the type assertion of the sing library, which
succeeds on a value of the target type and otherwise retries on the value's
`Upstream()` when it has one (the `Upstream() any` protocol that
`myInboundPacketAdapter` itself implements). The result is the `*net.TCPConn` found. -/
def castTCPConn : Conn → Option Conn
  | .tcp l r => some (.tcp l r)
  | .plain _ _ => none
  | .layered _ _ up => castTCPConn up

/-! ## Listen options, metadata, `createMetadata` -/

/-- `option.ListenOptions`, the fields read by the inbound. -/
structure ListenOptions where
  Listen : Nat
  ListenPort : Nat
  TCPFastOpen : Bool
  ProxyProtocol : Bool
  SniffEnabled : Bool
  SniffOverrideDestination : Bool
  DomainStrategy : Nat
deriving DecidableEq, Repr

/-- `adapter.InboundContext`, the fields written by the inbound. -/
structure InboundContext where
  Inbound : String
  InboundType : String
  Source : Socksaddr
  Destination : Socksaddr
  OriginDestination : Socksaddr
  SniffEnabled : Bool
  SniffOverrideDestination : Bool
  DomainStrategy : Nat
deriving DecidableEq, Repr

/-- The zero value `adapter.InboundContext{}`. -/
def InboundContext.zero : InboundContext :=
  { Inbound := "", InboundType := "", Source := Socksaddr.zero,
    Destination := Socksaddr.zero, OriginDestination := Socksaddr.zero,
    SniffEnabled := false, SniffOverrideDestination := false, DomainStrategy := 0 }

/-! ## The adapter -/

/-- The goroutines `Start` can launch. -/
inductive Loop where
  | loopTCPIn
  | loopUDPIn
  | loopUDPOOBIn
  | loopUDPInThreadSafe
  | loopUDPOOBInThreadSafe
  | loopUDPOut
deriving DecidableEq, Repr

/-- The four receive loops among the goroutines. -/
def Loop.isReceiveLoop : Loop → Bool
  | .loopUDPIn => true
  | .loopUDPOOBIn => true
  | .loopUDPInThreadSafe => true
  | .loopUDPOOBInThreadSafe => true
  | _ => false

/-- The value of the `packetUpstream any` field as `common.Cast[N.ThreadUnsafeWriter]`
sees it: `nil`, a value without `Upstream()`, or a value whose `Upstream()` returns
`upstream`; `threadUnsafeWriter` tells whether the value's type implements
`N.ThreadUnsafeWriter` (has the marker method `WriteIsThreadUnsafe`). -/
inductive PacketUpstream where
  | nil
  | plain (threadUnsafeWriter : Bool)
  | layered (threadUnsafeWriter : Bool) (upstream : PacketUpstream)
deriving DecidableEq, Repr

/-- The boolean returned by `common.Cast[N.ThreadUnsafeWriter](v)`. -/
def castThreadUnsafeWriter : PacketUpstream → Bool
  | .nil => false
  | .plain w => w
  | .layered w up => w || castThreadUnsafeWriter up

/-- A `net.Listener` interface value stored in `tcpListener`. `nilTCP` is the nil
`*net.TCPListener` that a failed bind returns, `tcp` a listener bound at `addr`,
`proxyproto` the wrapper `&proxyproto.Listener` around `inner`. -/
inductive Listener where
  | nilTCP
  | tcp (addr : AddrPort)
  | proxyproto (inner : Listener)
deriving DecidableEq, Repr

/-- `listener.Addr()`; `none` when the call dereferences a nil listener. The wrapper
embeds its inner listener, so its `Addr` is the inner one. -/
def Listener.Addr : Listener → Option NetAddr
  | .nilTCP => none
  | .tcp addr => some (some addr)
  | .proxyproto inner => inner.Addr

/-- The addresses a PROXY-protocol header declares for a connection. -/
structure ProxyHeader where
  SourceAddr : NetAddr
  DestinationAddr : NetAddr
deriving DecidableEq, Repr

/-- Modelled from the spec: `proxyproto.Listener.Accept` of package
`common/proxyproto`, which is not among the sources. The wrapper accepts from its
inner listener, consumes the PROXY header and returns a connection of its own type
that answers `RemoteAddr` with the address the header declares; the underlying
connection stays reachable through `Upstream()`. -/
def proxyproto.wrapConn (header : ProxyHeader) (conn : Conn) : Conn :=
  Conn.layered conn.LocalAddr header.SourceAddr conn

/-- `tcpListener.Accept()` as `loopTCPIn` calls it: `localAddr` and `remoteAddr` are
the addresses of the socket the kernel hands over, `header` the PROXY header read
from it by a wrapper. `none` when the accept fails (here: on a nil listener). -/
def Listener.Accept (localAddr remoteAddr : NetAddr) (header : ProxyHeader) :
    Listener → Option Conn
  | .nilTCP => none
  | .tcp _ => some (Conn.tcp localAddr remoteAddr)
  | .proxyproto inner =>
    (Listener.Accept localAddr remoteAddr header inner).map (proxyproto.wrapConn header)

/-- `*net.UDPConn` bound at `localAddr`. -/
structure UDPConn where
  localAddr : AddrPort
deriving DecidableEq, Repr

/-- `myInboundPacket`: the envelope queued on `packetOutbound`. -/
structure myInboundPacket where
  buffer : Nat
  destination : Socksaddr
deriving DecidableEq, Repr

/-- `myInboundAdapter`. The handler fields hold `true` when the interface value is
non-nil; `clearSystemProxy` holds what the stored closure returns when it is set;
a channel field is `none` until `make` has run. -/
structure myInboundAdapter where
  protocol : String
  network : List String
  tag : String
  listenOptions : ListenOptions
  connHandler : Bool
  packetHandler : Bool
  oobPacketHandler : Bool
  packetUpstream : PacketUpstream
  setSystemProxy : Bool
  clearSystemProxy : Option (Option GoError)
  tcpListener : Option Listener
  udpConn : Option UDPConn
  udpAddr : Socksaddr
  packetOutboundClosed : Option Bool
  packetOutbound : Option (List myInboundPacket)
deriving DecidableEq, Repr

namespace N

/-- `N.NetworkTCP`. -/
def NetworkTCP : String := "tcp"

/-- `N.NetworkUDP`. -/
def NetworkUDP : String := "udp"

end N

namespace C

/-- `C.TypeMixed`. -/
def TypeMixed : String := "mixed"

end C

/-- The operating system and platform calls made by `Start`: binding a TCP socket
(plain and fast-open), binding a UDP socket, and installing the system proxy for a
port (the result on success is what the returned undo closure will return). -/
structure StartEnv where
  netListenTCP : Socksaddr → Except GoError AddrPort
  tfoListenTCP : Socksaddr → Except GoError AddrPort
  netListenUDP : Socksaddr → Except GoError AddrPort
  SetSystemProxy : Nat → Bool → Except GoError (Option GoError)

/-- `myInboundAdapter.ListenTCP`: the adapter afterwards and the returned error. -/
def myInboundAdapter.ListenTCP (env : StartEnv) (a : myInboundAdapter) :
    myInboundAdapter × Option GoError :=
  let bindAddr := SocksaddrFrom a.listenOptions.Listen a.listenOptions.ListenPort
  let bound :=
    if !a.listenOptions.TCPFastOpen then env.netListenTCP bindAddr
    else env.tfoListenTCP bindAddr
  let tcpListener : Listener :=
    match bound with
    | .ok addr => Listener.tcp addr
    | .error _ => Listener.nilTCP
  let err : Option GoError :=
    match bound with
    | .ok _ => none
    | .error e => some e
  let tcpListener :=
    if a.listenOptions.ProxyProtocol then Listener.proxyproto tcpListener else tcpListener
  ({ a with tcpListener := some tcpListener }, err)

/-- `myInboundAdapter.ListenUDP`: the adapter afterwards and the returned error. -/
def myInboundAdapter.ListenUDP (env : StartEnv) (a : myInboundAdapter) :
    myInboundAdapter × Option GoError :=
  let bindAddr := SocksaddrFrom a.listenOptions.Listen a.listenOptions.ListenPort
  match env.netListenUDP bindAddr with
  | .error err => (a, some err)
  | .ok addr => ({ a with udpConn := some { localAddr := addr }, udpAddr := bindAddr }, none)

/-- How a call of `Start` ends: it returns nil, returns an error, or panics on the
nil `tcpListener` interface. -/
inductive StartResult where
  | ok
  | error (err : GoError)
  | nilListenerPanic
deriving DecidableEq, Repr

/-- What `Start` leaves behind: the adapter, the goroutines launched in program
order, and how the call ended. -/
structure StartOutcome where
  adapter : myInboundAdapter
  launched : List Loop
  result : StartResult
deriving DecidableEq, Repr

/-- The UDP branch of `Start` after a successful bind (lines 79 to 94): make the two
channels and launch the loops. -/
def myInboundAdapter.launchUDP (a : myInboundAdapter) : myInboundAdapter × List Loop :=
  let a := { a with packetOutboundClosed := some false, packetOutbound := some [] }
  if a.oobPacketHandler then
    if !castThreadUnsafeWriter a.packetUpstream then
      (a, [Loop.loopUDPOOBIn])
    else
      (a, [Loop.loopUDPOOBInThreadSafe])
  else
    if !castThreadUnsafeWriter a.packetUpstream then
      (a, [Loop.loopUDPIn, Loop.loopUDPOut])
    else
      (a, [Loop.loopUDPInThreadSafe, Loop.loopUDPOut])

/-- The system-proxy step of `Start` (lines 96 to 101), run on the adapter and the
goroutines launched so far. -/
def myInboundAdapter.startSystemProxy (env : StartEnv) (a : myInboundAdapter)
    (launched : List Loop) : StartOutcome :=
  if a.setSystemProxy then
    match a.tcpListener.bind Listener.Addr with
    | none => { adapter := a, launched := launched, result := .nilListenerPanic }
    | some addr =>
      match env.SetSystemProxy (SocksaddrFromNet addr).Port (a.protocol == C.TypeMixed) with
      | .error err =>
        { adapter := { a with clearSystemProxy := none }, launched := launched,
          result := .error (E.Cause err "set system proxy") }
      | .ok clear =>
        { adapter := { a with clearSystemProxy := some clear }, launched := launched,
          result := .ok }
  else
    { adapter := a, launched := launched, result := .ok }

/-- `myInboundAdapter.Start`. -/
def myInboundAdapter.Start (env : StartEnv) (a : myInboundAdapter) : StartOutcome :=
  let tcp : StartOutcome :=
    if a.network.contains N.NetworkTCP then
      match a.ListenTCP env with
      | (a, some err) => { adapter := a, launched := [], result := .error err }
      | (a, none) => { adapter := a, launched := [Loop.loopTCPIn], result := .ok }
    else
      { adapter := a, launched := [], result := .ok }
  match tcp.result with
  | .ok =>
    let udp : StartOutcome :=
      if a.network.contains N.NetworkUDP then
        match tcp.adapter.ListenUDP env with
        | (a, some err) => { adapter := a, launched := tcp.launched, result := .error err }
        | (a, none) =>
          { adapter := a.launchUDP.1, launched := tcp.launched ++ a.launchUDP.2,
            result := .ok }
      else
        tcp
    match udp.result with
    | .ok => udp.adapter.startSystemProxy env udp.launched
    | _ => udp
  | _ => tcp

/-- `myInboundAdapter.createMetadata`. -/
def myInboundAdapter.createMetadata (a : myInboundAdapter) (conn : Conn)
    (metadata : InboundContext) : InboundContext :=
  let metadata := { metadata with Inbound := a.tag }
  let metadata := { metadata with InboundType := a.protocol }
  let metadata := { metadata with SniffEnabled := a.listenOptions.SniffEnabled }
  let metadata :=
    { metadata with SniffOverrideDestination := a.listenOptions.SniffOverrideDestination }
  let metadata := { metadata with DomainStrategy := a.listenOptions.DomainStrategy }
  let metadata :=
    if !metadata.Source.IsValid then
      { metadata with Source := SocksaddrFromNet conn.RemoteAddr }
    else metadata
  let metadata :=
    if !metadata.Destination.IsValid then
      { metadata with Destination := SocksaddrFromNet conn.LocalAddr }
    else metadata
  match castTCPConn conn with
  | some tcpConn => { metadata with OriginDestination := SocksaddrFromNet tcpConn.LocalAddr }
  | none => metadata

/-! ## The error sink -/

/-- Level of a line written to the logger. -/
inductive LogLevel where
  | debug
  | error
deriving DecidableEq, Repr

/-- A line written to the logger about an error: its level and the error logged. -/
structure LogLine where
  level : LogLevel
  err : GoError
deriving DecidableEq, Repr

/-- `myInboundAdapter.newError`: `a.logger.Error(err)`. The lines written. -/
def myInboundAdapter.newError (err : GoError) : List LogLine :=
  [{ level := LogLevel.error, err := err }]

/-- The package function `NewError(logger, ctx, err)`, which the method
`myInboundAdapter.NewError` forwards to. The lines written. -/
def NewError (err : GoError) : List LogLine :=
  if E.IsClosedOrCanceled err then
    [{ level := LogLevel.debug, err := err }]
  else
    [{ level := LogLevel.error, err := err }]

/-- `Socksaddr.String`, used in error messages. -/
def Socksaddr.String (s : Socksaddr) : String :=
  (match s.Addr with
   | some ip => toString ip
   | none => s.Fqdn) ++ ":" ++ toString s.Port

/-! ## Stream path -/

/-- Effects of handling one accepted connection: whether `conn.Close()` was called,
the metadata given to the handler, and the lines logged. -/
structure StreamEffect where
  connClosed : Bool
  metadata : InboundContext
  log : List LogLine
deriving DecidableEq, Repr

/-- `myInboundAdapter.injectTCP`; `hErr` is what `connHandler.NewConnection` returns. -/
def myInboundAdapter.injectTCP (a : myInboundAdapter) (conn : Conn)
    (hErr : Option GoError) : StreamEffect :=
  let metadata := a.createMetadata conn InboundContext.zero
  match hErr with
  | some hErr =>
    { connClosed := true, metadata := metadata,
      log := NewError (E.Cause hErr ("process connection from " ++ metadata.Source.String)) }
  | none => { connClosed := false, metadata := metadata, log := [] }

/-- `myInboundAdapter.routeTCP`; `hErr` is what `a.newConnection` (the router's
`RouteConnection`) returns. -/
def myInboundAdapter.routeTCP (metadata : InboundContext)
    (hErr : Option GoError) : StreamEffect :=
  match hErr with
  | some hErr =>
    { connClosed := true, metadata := metadata,
      log := NewError (E.Cause hErr ("process connection from " ++ metadata.Source.String)) }
  | none => { connClosed := false, metadata := metadata, log := [] }

/-! ## Receive loops -/

/-- Outcome of `udpConn.ReadFromUDPAddrPort`. -/
inductive ReadResult where
  | ok (n : Nat) (addr : AddrPort)
  | error (err : GoError)
deriving DecidableEq, Repr

/-- Outcome of `udpConn.ReadMsgUDPAddrPort`. -/
inductive ReadMsgResult where
  | ok (n oobN : Nat) (addr : AddrPort)
  | error (err : GoError)
deriving DecidableEq, Repr

/-- One pass of a plain receive loop as the outside world decides it: what the read
returns and what the handler's `NewPacket` returns if it gets called. -/
structure Round where
  read : ReadResult
  handler : Option GoError
deriving DecidableEq, Repr

/-- One pass of an OOB receive loop as the outside world decides it. -/
structure OOBRound where
  read : ReadMsgResult
  handler : Option GoError
deriving DecidableEq, Repr

/-- A call of `NewPacket`: the buffer handed over, its length after `Truncate`, the
length of the OOB slice for the OOB handler, and the metadata. -/
structure Handoff where
  buffer : Nat
  length : Nat
  oob : Option Nat
  metadata : InboundContext
deriving DecidableEq, Repr

/-- Effects of one pass of a receive loop: the buffers it released, the calls of
`NewPacket`, the lines logged, and whether the pass left the loop (`return`). -/
structure IterEffect where
  released : List Nat
  handed : List Handoff
  log : List LogLine
  exit : Bool
deriving DecidableEq, Repr

/-- Effects of a run of a receive loop. `exited` tells whether the loop returned;
`closedSignal` whether `close(a.packetOutboundClosed)` ran. -/
structure LoopTrace where
  released : List Nat
  handed : List Handoff
  log : List LogLine
  exited : Bool
  closedSignal : Bool
deriving DecidableEq, Repr

/-- The metadata every receive loop builds for a datagram from `addr`. -/
def myInboundAdapter.packetMetadata (a : myInboundAdapter) (addr : AddrPort) :
    InboundContext :=
  let metadata := InboundContext.zero
  let metadata := { metadata with Inbound := a.tag }
  let metadata := { metadata with InboundType := a.protocol }
  let metadata := { metadata with SniffEnabled := a.listenOptions.SniffEnabled }
  let metadata :=
    { metadata with SniffOverrideDestination := a.listenOptions.SniffOverrideDestination }
  let metadata := { metadata with DomainStrategy := a.listenOptions.DomainStrategy }
  let metadata := { metadata with Source := SocksaddrFromNetIP addr }
  { metadata with OriginDestination := a.udpAddr }

/-- Body of the `for` of `loopUDPIn` on the pooled buffer `buffer`. -/
def myInboundAdapter.loopUDPIn.iteration (a : myInboundAdapter) (buffer : Nat)
    (r : Round) : IterEffect :=
  match r.read with
  | .error _ => { released := [], handed := [], log := [], exit := true }
  | .ok n addr =>
    let metadata := a.packetMetadata addr
    let handed : List Handoff :=
      [{ buffer := buffer, length := n, oob := none, metadata := metadata }]
    match r.handler with
    | some err =>
      { released := [], handed := handed,
        log := myInboundAdapter.newError
          (E.Cause err ("process packet from " ++ metadata.Source.String)),
        exit := false }
    | none => { released := [], handed := handed, log := [], exit := false }

/-- Body of the `for` of `loopUDPOOBIn` on the pooled buffer `buffer`. -/
def myInboundAdapter.loopUDPOOBIn.iteration (a : myInboundAdapter) (buffer : Nat)
    (r : OOBRound) : IterEffect :=
  match r.read with
  | .error _ => { released := [], handed := [], log := [], exit := true }
  | .ok n oobN addr =>
    let metadata := a.packetMetadata addr
    let handed : List Handoff :=
      [{ buffer := buffer, length := n, oob := some oobN, metadata := metadata }]
    match r.handler with
    | some err =>
      { released := [], handed := handed,
        log := myInboundAdapter.newError
          (E.Cause err ("process packet from " ++ metadata.Source.String)),
        exit := false }
    | none => { released := [], handed := handed, log := [], exit := false }

/-- Body of the `for` of `loopUDPInThreadSafe`; `buffer` is the buffer `buf.NewPacket()`
returned for this pass. -/
def myInboundAdapter.loopUDPInThreadSafe.iteration (a : myInboundAdapter) (buffer : Nat)
    (r : Round) : IterEffect :=
  match r.read with
  | .error _ => { released := [buffer], handed := [], log := [], exit := true }
  | .ok n addr =>
    let metadata := a.packetMetadata addr
    let handed : List Handoff :=
      [{ buffer := buffer, length := n, oob := none, metadata := metadata }]
    match r.handler with
    | some err =>
      { released := [buffer], handed := handed,
        log := myInboundAdapter.newError
          (E.Cause err ("process packet from " ++ metadata.Source.String)),
        exit := false }
    | none => { released := [], handed := handed, log := [], exit := false }

/-- Body of the `for` of `loopUDPOOBInThreadSafe`; `buffer` is the buffer
`buf.NewPacket()` returned for this pass. -/
def myInboundAdapter.loopUDPOOBInThreadSafe.iteration (a : myInboundAdapter)
    (buffer : Nat) (r : OOBRound) : IterEffect :=
  match r.read with
  | .error _ => { released := [buffer], handed := [], log := [], exit := true }
  | .ok n oobN addr =>
    let metadata := a.packetMetadata addr
    let handed : List Handoff :=
      [{ buffer := buffer, length := n, oob := some oobN, metadata := metadata }]
    match r.handler with
    | some err =>
      { released := [buffer], handed := handed,
        log := myInboundAdapter.newError
          (E.Cause err ("process packet from " ++ metadata.Source.String)),
        exit := false }
    | none => { released := [], handed := handed, log := [], exit := false }

/-- The trace of a loop that is still waiting in its read: nothing done. -/
def LoopTrace.waiting : LoopTrace :=
  { released := [], handed := [], log := [], exited := false, closedSignal := false }

/-- Puts the effects of one pass in front of the trace of the passes after it. -/
def IterEffect.andThen (it : IterEffect) (t : LoopTrace) : LoopTrace :=
  { released := it.released ++ t.released, handed := it.handed ++ t.handed,
    log := it.log ++ t.log, exited := t.exited, closedSignal := t.closedSignal }

/-- The deferred calls of a pooled loop, run when it returns: `buffer.DecRef()`,
`buffer.Release()` and `close(a.packetOutboundClosed)`. -/
def LoopTrace.pooledExit (buffer : Nat) : LoopTrace :=
  { released := [buffer], handed := [], log := [], exited := true, closedSignal := true }

/-- The deferred call of a per-packet loop, run when it returns:
`close(a.packetOutboundClosed)`. -/
def LoopTrace.perPacketExit : LoopTrace :=
  { released := [], handed := [], log := [], exited := true, closedSignal := true }

/-- `loopUDPIn` run against the rounds the outside world supplies; `buffer` is the
one buffer made before the `for`. When the rounds run out the loop is waiting in
its read. -/
def myInboundAdapter.loopUDPIn (a : myInboundAdapter) (buffer : Nat) :
    List Round → LoopTrace
  | [] => LoopTrace.waiting
  | r :: rs =>
    let it := myInboundAdapter.loopUDPIn.iteration a buffer r
    if it.exit then it.andThen (LoopTrace.pooledExit buffer)
    else it.andThen (myInboundAdapter.loopUDPIn a buffer rs)

/-- `loopUDPOOBIn` run against the rounds the outside world supplies. -/
def myInboundAdapter.loopUDPOOBIn (a : myInboundAdapter) (buffer : Nat) :
    List OOBRound → LoopTrace
  | [] => LoopTrace.waiting
  | r :: rs =>
    let it := myInboundAdapter.loopUDPOOBIn.iteration a buffer r
    if it.exit then it.andThen (LoopTrace.pooledExit buffer)
    else it.andThen (myInboundAdapter.loopUDPOOBIn a buffer rs)

/-- `loopUDPInThreadSafe` run against the rounds the outside world supplies; the
buffers `buf.NewPacket()` returns are numbered `next`, `next + 1`, ... -/
def myInboundAdapter.loopUDPInThreadSafe (a : myInboundAdapter) (next : Nat) :
    List Round → LoopTrace
  | [] => LoopTrace.waiting
  | r :: rs =>
    let it := myInboundAdapter.loopUDPInThreadSafe.iteration a next r
    if it.exit then it.andThen LoopTrace.perPacketExit
    else it.andThen (myInboundAdapter.loopUDPInThreadSafe a (next + 1) rs)

/-- `loopUDPOOBInThreadSafe` run against the rounds the outside world supplies. -/
def myInboundAdapter.loopUDPOOBInThreadSafe (a : myInboundAdapter) (next : Nat) :
    List OOBRound → LoopTrace
  | [] => LoopTrace.waiting
  | r :: rs =>
    let it := myInboundAdapter.loopUDPOOBInThreadSafe.iteration a next r
    if it.exit then it.andThen LoopTrace.perPacketExit
    else it.andThen (myInboundAdapter.loopUDPOOBInThreadSafe a (next + 1) rs)

/-! ## Write-back path -/

/-- `Socksaddr.AddrPort`, the IP and port of an address that is not a domain name. -/
def Socksaddr.AddrPort (s : Socksaddr) : AddrPort :=
  { ip := s.Addr.getD 0, port := s.Port }

/-- Outcomes of the external calls one `writePacket` can make: `net.ResolveUDPAddr`
and the error returned by the send (`WriteTo` or `WriteToUDPAddrPort`). -/
structure WriteCalls where
  resolve : Except GoError AddrPort
  send : Option GoError
deriving Repr

/-- A send issued on the UDP socket: the buffer whose bytes were sent and the target. -/
structure Send where
  buffer : Nat
  target : AddrPort
deriving DecidableEq, Repr

/-- Effects of one `writePacket`: the sends issued, the buffers released and the
error returned. -/
structure WriteEffect where
  sends : List Send
  released : List Nat
  err : Option GoError
deriving DecidableEq, Repr

/-- `myInboundAdapter.writePacket`. The deferred `buffer.Release()` runs on every
return, after the body. -/
def myInboundAdapter.writePacket (calls : WriteCalls) (buffer : Nat)
    (destination : Socksaddr) : WriteEffect :=
  let body : List Send × Option GoError :=
    if destination.IsFqdn then
      match calls.resolve with
      | .error err => ([], some err)
      | .ok udpAddr => ([{ buffer := buffer, target := udpAddr }], calls.send)
    else
      ([{ buffer := buffer, target := destination.AddrPort }], calls.send)
  { sends := body.1, released := [buffer], err := body.2 }

/-- Where `loopUDPOut` stands: at the outer `select`, at the inner `select` (after it
took the `packetOutboundClosed` branch), or returned. -/
inductive OutPhase where
  | selecting
  | draining
  | returned
deriving DecidableEq, Repr

/-- The state `loopUDPOut` and `WritePacket` work on: the envelopes offered on
`packetOutbound` and not yet received, whether `packetOutboundClosed` is closed,
where the loop stands, the sends issued, the buffers released and the lines logged. -/
structure WriteBack where
  packetOutbound : List myInboundPacket
  packetOutboundClosed : Bool
  phase : OutPhase
  sends : List Send
  released : List Nat
  log : List LogLine
deriving DecidableEq, Repr

/-- A move of `loopUDPOut`: the outer `select` receives an envelope (and `writePacket`
runs with the given outcomes), the outer `select` takes the `packetOutboundClosed`
branch, or the inner `select` runs once. -/
inductive OutEvent where
  | recv (calls : WriteCalls)
  | closed
  | drain
deriving Repr

/-- One move of `loopUDPOut`; `none` when the move is not possible in the state. -/
def myInboundAdapter.loopUDPOut.step (ev : OutEvent) (s : WriteBack) : Option WriteBack :=
  match s.phase, ev with
  | .selecting, .recv calls =>
    match s.packetOutbound with
    | [] => none
    | packet :: rest =>
      let w := myInboundAdapter.writePacket calls packet.buffer packet.destination
      let logged : List LogLine :=
        match w.err with
        | some err =>
          if !E.IsClosed err then
            myInboundAdapter.newError (E.New ("write back udp: " ++ err.msg))
          else []
        | none => []
      some { s with packetOutbound := rest, sends := s.sends ++ w.sends,
                    released := s.released ++ w.released, log := s.log ++ logged }
  | .selecting, .closed =>
    if s.packetOutboundClosed then some { s with phase := .draining } else none
  | .draining, .drain =>
    match s.packetOutbound with
    | packet :: rest =>
      some { s with packetOutbound := rest, released := s.released ++ [packet.buffer] }
    | [] => some { s with phase := .returned }
  | _, _ => none

/-- A move of the system around the write-back state: a move of `loopUDPOut`, a
producer reaching its channel send with an envelope, or the receive loop closing
`packetOutboundClosed` on its way out. -/
inductive SysEvent where
  | loop (ev : OutEvent)
  | offer (packet : myInboundPacket)
  | closeSignal
deriving Repr

/-- One move of the system; `none` when the move is not possible in the state. -/
def WriteBack.step (ev : SysEvent) (s : WriteBack) : Option WriteBack :=
  match ev with
  | .loop ev => myInboundAdapter.loopUDPOut.step ev s
  | .offer packet => some { s with packetOutbound := s.packetOutbound ++ [packet] }
  | .closeSignal => some { s with packetOutboundClosed := true }

/-- A sequence of moves of the system, `none` as soon as one is not possible. -/
def WriteBack.run : List SysEvent → WriteBack → Option WriteBack
  | [], s => some s
  | ev :: evs, s =>
    match WriteBack.step ev s with
    | some s => WriteBack.run evs s
    | none => none

/-- The buffers of the envelopes offered by producers during a sequence of moves. -/
def offeredBuffers : List SysEvent → List Nat
  | [] => []
  | .offer packet :: evs => packet.buffer :: offeredBuffers evs
  | _ :: evs => offeredBuffers evs

/-- `myInboundPacketAdapter.WritePacket`: the state afterwards and the error
returned. The read lock taken around the body has no writer to wait for. -/
def myInboundPacketAdapter.WritePacket (s : WriteBack) (buffer : Nat)
    (destination : Socksaddr) : WriteBack × Option GoError :=
  if s.packetOutboundClosed then
    (s, some osErrClosed)
  else
    ({ s with packetOutbound :=
                s.packetOutbound ++ [{ buffer := buffer, destination := destination }] },
     none)

/-! ## Service.Close -/

/-- Something with a `Close() error` method: a name for the record of calls and the
error its `Close` returns. -/
structure Closer where
  name : String
  closeErr : Option GoError
deriving DecidableEq, Repr

/-- `common.Close(closers...)` of the sing library: calls `Close` on every argument
that is not nil and is an `io.Closer` (`none` stands for the other arguments), and
returns the error of the last call that failed. The calls made and the result. -/
def common.Close (closers : List (Option Closer)) : List String × Option GoError :=
  closers.foldl
    (fun acc closer =>
      match closer with
      | none => acc
      | some c =>
        (acc.1 ++ [c.name],
         match c.closeErr with
         | some err => some err
         | none => acc.2))
    ([], none)

/-- `Service`: router, logger, inbounds, and outbounds (an outbound is `some` closer
when its type has a `Close` method). -/
structure Service where
  router : Closer
  logger : Closer
  inbounds : List Closer
  outbounds : List (Option Closer)
deriving DecidableEq, Repr

/-- `Service.Close`: the `Close` calls made, in order, and the error returned. -/
def Service.Close (s : Service) : List String × Option GoError :=
  let calls : List String := s.inbounds.foldl (fun calls inb => calls ++ [inb.name]) []
  let calls : List String :=
    s.outbounds.foldl (fun calls out => calls ++ (common.Close [out]).1) calls
  let last := common.Close [some s.router, some s.logger]
  (calls ++ last.1, last.2)

/-! ## Concrete inputs used by the closed theorems -/

/-- Listen options with every flag off. -/
def sampleOptions : ListenOptions :=
  { Listen := 127, ListenPort := 11080, TCPFastOpen := false, ProxyProtocol := false,
    SniffEnabled := false, SniffOverrideDestination := false, DomainStrategy := 0 }

/-- A freshly constructed inbound listening on UDP only, with a packet handler that
does not declare `ThreadUnsafeWriter`, no OOB handler and no system proxy. -/
def sampleUDPInbound : myInboundAdapter :=
  { protocol := "mixed", network := [N.NetworkUDP], tag := "in", listenOptions := sampleOptions,
    connHandler := true, packetHandler := true, oobPacketHandler := false,
    packetUpstream := PacketUpstream.plain false, setSystemProxy := false,
    clearSystemProxy := none, tcpListener := none, udpConn := none,
    udpAddr := Socksaddr.zero, packetOutboundClosed := none, packetOutbound := none }

/-- The same inbound with `set_system_proxy` switched on. -/
def sampleUDPProxyInbound : myInboundAdapter :=
  { sampleUDPInbound with setSystemProxy := true }

/-- An inbound listening on TCP and UDP with an OOB packet handler whose upstream
chain reaches a value that declares `ThreadUnsafeWriter`. -/
def sampleDualInbound : myInboundAdapter :=
  { sampleUDPInbound with
    network := [N.NetworkTCP, N.NetworkUDP], oobPacketHandler := true,
    packetUpstream := PacketUpstream.layered false (PacketUpstream.plain true) }

/-- An inbound listening on TCP with the PROXY protocol switched on. -/
def sampleProxyProtocolInbound : myInboundAdapter :=
  { sampleUDPInbound with
    network := [N.NetworkTCP],
    listenOptions := { sampleOptions with ProxyProtocol := true } }

/-- A PROXY header declaring the client `192.0.2.7:1234` (written with one number
per address). -/
def sampleHeader : ProxyHeader :=
  { SourceAddr := some { ip := 192, port := 1234 },
    DestinationAddr := some { ip := 127, port := 11080 } }

/-- A platform on which every bind succeeds at the requested address and the
system proxy installs. -/
def goodEnv : StartEnv :=
  { netListenTCP := fun bindAddr => .ok bindAddr.AddrPort,
    tfoListenTCP := fun bindAddr => .ok bindAddr.AddrPort,
    netListenUDP := fun bindAddr => .ok bindAddr.AddrPort,
    SetSystemProxy := fun _ _ => .ok none }

/-- A platform on which the UDP bind fails (address in use). -/
def udpBindFailsEnv : StartEnv :=
  { goodEnv with
    netListenUDP := fun _ => .error { kind := ErrKind.other, msg := "address already in use" } }

/-- The selection rule in the words of the specification: variants C or D (the OOB
loops) when the handler declares the OOB capability, A or B otherwise; inside a pair
the pooled variant when the handler does not declare `ThreadUnsafeWriter`, the
per-packet variant when it does. -/
def specReceiveLoop (a : myInboundAdapter) : Loop :=
  match a.oobPacketHandler, castThreadUnsafeWriter a.packetUpstream with
  | true, false => Loop.loopUDPOOBIn
  | true, true => Loop.loopUDPOOBInThreadSafe
  | false, false => Loop.loopUDPIn
  | false, true => Loop.loopUDPInThreadSafe

/-- The bind address both listeners compute from the listen options. -/
def myInboundAdapter.bindAddr (a : myInboundAdapter) : Socksaddr :=
  SocksaddrFrom a.listenOptions.Listen a.listenOptions.ListenPort

/-- The raw TCP bind `ListenTCP` performs: `net.ListenTCP`, or `tfo.ListenTCP` when
fast open is requested. -/
def myInboundAdapter.tcpBind (env : StartEnv) (a : myInboundAdapter) :
    Except GoError AddrPort :=
  if !a.listenOptions.TCPFastOpen then env.netListenTCP a.bindAddr
  else env.tfoListenTCP a.bindAddr

/-- A raw TCP connection accepted on the sample listen address. -/
def sampleTCPConn : Conn :=
  Conn.tcp (some { ip := 127, port := 11080 }) (some { ip := 192, port := 1234 })

/-- A domain-name destination. -/
def sampleFqdnDestination : Socksaddr :=
  { Addr := none, Port := 53, Fqdn := "example.test" }

/-- An IP destination. -/
def sampleIPDestination : Socksaddr :=
  { Addr := some 192, Port := 1234, Fqdn := "" }

/-- A write-back state at the outer `select`, close signal not fired, with two
envelopes offered: buffer 1 to a domain name, buffer 2 to an IP address. -/
def sampleSelecting : WriteBack :=
  { packetOutbound := [{ buffer := 1, destination := sampleFqdnDestination },
                       { buffer := 2, destination := sampleIPDestination }],
    packetOutboundClosed := false, phase := OutPhase.selecting,
    sends := [], released := [], log := [] }

/-- The same state after the receive loop has closed `packetOutboundClosed`. -/
def sampleClosed : WriteBack :=
  { sampleSelecting with packetOutboundClosed := true }

/-- External outcomes for one `writePacket`: the resolution fails. -/
def resolveFails : WriteCalls :=
  { resolve := .error { kind := ErrKind.other, msg := "no such host" }, send := none }

/-- Whether a read failed. -/
def ReadResult.failed : ReadResult → Bool
  | .ok _ _ => false
  | .error _ => true

/-- Whether a read with OOB data failed. -/
def ReadMsgResult.failed : ReadMsgResult → Bool
  | .ok _ _ _ => false
  | .error _ => true

/-- A round in which a 128-byte datagram arrives and the handler fails with a closed
error (`os.ErrClosed`). -/
def closedHandlerRound : Round :=
  { read := ReadResult.ok 128 { ip := 192, port := 1234 }, handler := some osErrClosed }

/-- A service with one inbound whose `Close` fails, one outbound that is a closer,
one that is not, and a router and a logger that close cleanly. -/
def sampleService : Service :=
  { router := { name := "router", closeErr := none },
    logger := { name := "logger", closeErr := none },
    inbounds := [{ name := "inbound[0]",
                   closeErr := some { kind := ErrKind.other, msg := "close tcp listener" } }],
    outbounds := [some { name := "outbound[0]", closeErr := none }, none] }

/-- External outcomes for one `writePacket`: the resolution fails with a cancelled
error (`context.DeadlineExceeded`). -/
def resolveCanceled : WriteCalls :=
  { resolve := .error { kind := ErrKind.canceled, msg := "context deadline exceeded" },
    send := none }

/-! # Theorems -/

/-! ## Start -/

/-- The system-proxy step launches nothing. -/
theorem startSystemProxy_launched (env : StartEnv) (a : myInboundAdapter) (l : List Loop) :
    (a.startSystemProxy env l).launched = l := by
  unfold myInboundAdapter.startSystemProxy
  split
  · split
    · rfl
    · split <;> rfl
  · rfl

/-- The error `ListenTCP` returns is the error of the raw bind. -/
theorem ListenTCP_err (env : StartEnv) (a : myInboundAdapter) :
    (a.ListenTCP env).2 =
      (match a.tcpBind env with
       | .ok _ => none
       | .error e => some e) := rfl

/-- The only field `ListenTCP` writes is `tcpListener`. -/
theorem ListenTCP_adapter (env : StartEnv) (a : myInboundAdapter) :
    ∃ l, (a.ListenTCP env).1 = { a with tcpListener := some l } := ⟨_, rfl⟩

/-- The two ways `ListenUDP` ends. -/
theorem ListenUDP_eq (env : StartEnv) (a : myInboundAdapter) :
    a.ListenUDP env =
      (match env.netListenUDP a.bindAddr with
       | .error err => (a, some err)
       | .ok addr =>
         ({ a with udpConn := some { localAddr := addr }, udpAddr := a.bindAddr }, none)) := rfl

/-- The goroutines launched by the UDP branch of `Start`. -/
theorem launchUDP_loops (a : myInboundAdapter) :
    a.launchUDP.2 =
      specReceiveLoop a :: (if a.oobPacketHandler then [] else [Loop.loopUDPOut]) := by
  cases hoob : a.oobPacketHandler <;> cases hc : castThreadUnsafeWriter a.packetUpstream <;>
    simp [myInboundAdapter.launchUDP, specReceiveLoop, hoob, hc]

/-- The goroutines `Start` launches for a UDP-enabled inbound whose binds succeed. -/
theorem Start_launched_of_binds (env : StartEnv) (a : myInboundAdapter)
    (hudp : a.network.contains N.NetworkUDP = true)
    (htcp : a.network.contains N.NetworkTCP = true → ∃ addr, a.tcpBind env = .ok addr)
    (hbind : ∃ addr, env.netListenUDP a.bindAddr = .ok addr) :
    (a.Start env).launched =
      (if a.network.contains N.NetworkTCP then [Loop.loopTCPIn] else [])
        ++ specReceiveLoop a :: (if a.oobPacketHandler then [] else [Loop.loopUDPOut]) := by
  obtain ⟨uaddr, hu⟩ := hbind
  by_cases ht : a.network.contains N.NetworkTCP = true
  · obtain ⟨taddr, htb⟩ := htcp ht
    have herr : (a.ListenTCP env).2 = none := by rw [ListenTCP_err, htb]
    obtain ⟨l, hfst⟩ := ListenTCP_adapter env a
    rcases hL : a.ListenTCP env with ⟨a1, e1⟩
    rw [hL] at herr hfst
    simp only at herr hfst
    subst herr
    have hb1 : a1.bindAddr = a.bindAddr := by rw [hfst]; rfl
    have ho1 : a1.oobPacketHandler = a.oobPacketHandler := by rw [hfst]
    have hp1 : a1.packetUpstream = a.packetUpstream := by rw [hfst]
    have hU := ListenUDP_eq env a1
    rw [hb1, hu] at hU
    simp only at hU
    unfold myInboundAdapter.Start
    simp only [ht, hudp, hL, if_true, hU, startSystemProxy_launched, launchUDP_loops]
    simp [specReceiveLoop, ho1, hp1]
  · have hU := ListenUDP_eq env a
    rw [hu] at hU
    simp only at hU
    unfold myInboundAdapter.Start
    have ht2 : a.network.contains N.NetworkTCP = false := Bool.eq_false_iff.mpr ht
    simp only [ht2, hudp, if_true, Bool.false_eq_true, if_false, hU,
      startSystemProxy_launched, launchUDP_loops]
    simp [specReceiveLoop]

/-- C1, as stated, fails: the sample inbound is UDP-enabled, its UDP bind fails, and
`Start` returns the bind error having launched no receive loop (nor any goroutine). -/
theorem C1_bind_failure_launches_no_receive_loop :
    sampleUDPInbound.network.contains N.NetworkUDP = true ∧
    (sampleUDPInbound.Start udpBindFailsEnv).launched.filter Loop.isReceiveLoop = [] ∧
    (sampleUDPInbound.Start udpBindFailsEnv).result =
      StartResult.error { kind := ErrKind.other, msg := "address already in use" } := by
  decide

/-- C1, amended: for every UDP-enabled inbound whose binds succeed (the TCP bind when
TCP is enabled, and the UDP bind), `Start` launches exactly one receive loop, the one
the selection rule names: an OOB loop and no `loopUDPOut` when an OOB handler is
present, a plain loop and one `loopUDPOut` otherwise; the pooled loop of the pair when
the upstream does not cast to `ThreadUnsafeWriter`, the per-packet loop when it does. -/
theorem C1_Start_launches_selected_receive_loop (env : StartEnv) (a : myInboundAdapter)
    (hudp : a.network.contains N.NetworkUDP = true)
    (htcp : a.network.contains N.NetworkTCP = true → ∃ addr, a.tcpBind env = .ok addr)
    (hbind : ∃ addr, env.netListenUDP a.bindAddr = .ok addr) :
    (a.Start env).launched.filter Loop.isReceiveLoop = [specReceiveLoop a] ∧
    (a.Start env).launched.count Loop.loopUDPOut = (if a.oobPacketHandler then 0 else 1) ∧
    (specReceiveLoop a = Loop.loopUDPOOBIn ↔
      a.oobPacketHandler = true ∧ castThreadUnsafeWriter a.packetUpstream = false) ∧
    (specReceiveLoop a = Loop.loopUDPOOBInThreadSafe ↔
      a.oobPacketHandler = true ∧ castThreadUnsafeWriter a.packetUpstream = true) ∧
    (specReceiveLoop a = Loop.loopUDPIn ↔
      a.oobPacketHandler = false ∧ castThreadUnsafeWriter a.packetUpstream = false) ∧
    (specReceiveLoop a = Loop.loopUDPInThreadSafe ↔
      a.oobPacketHandler = false ∧ castThreadUnsafeWriter a.packetUpstream = true) := by
  rw [Start_launched_of_binds env a hudp htcp hbind]
  cases hoob : a.oobPacketHandler <;> cases hc : castThreadUnsafeWriter a.packetUpstream <;>
    cases ht : a.network.contains N.NetworkTCP <;>
    simp [specReceiveLoop, hoob, hc, Loop.isReceiveLoop]

/-- Witness of C1 amended: the sample TCP and UDP inbound with an OOB handler and a
thread-unsafe writer, on a platform where every bind succeeds. -/
theorem C1_Start_launches_selected_receive_loop_witness :
    sampleDualInbound.network.contains N.NetworkUDP = true ∧
    sampleDualInbound.tcpBind goodEnv = .ok { ip := 127, port := 11080 } ∧
    goodEnv.netListenUDP sampleDualInbound.bindAddr = .ok { ip := 127, port := 11080 } ∧
    (sampleDualInbound.Start goodEnv).launched.filter Loop.isReceiveLoop =
      [Loop.loopUDPOOBInThreadSafe] ∧
    (sampleDualInbound.Start goodEnv).launched.count Loop.loopUDPOut = 0 :=
  ⟨by decide, rfl, rfl,
   (C1_Start_launches_selected_receive_loop goodEnv sampleDualInbound (by decide)
      (fun _ => ⟨_, rfl⟩) ⟨_, rfl⟩).1,
   (C1_Start_launches_selected_receive_loop goodEnv sampleDualInbound (by decide)
      (fun _ => ⟨_, rfl⟩) ⟨_, rfl⟩).2.1⟩

/-- C10, at the failing input: a UDP-only inbound with `set_system_proxy` on, on a
platform where every bind succeeds. `Start` launches the UDP loops, reaches the
system-proxy step with `tcpListener` never set, and ends in the nil-listener panic. -/
theorem C10_Start_udp_only_system_proxy_nil_listener :
    sampleUDPProxyInbound.setSystemProxy = true ∧
    sampleUDPProxyInbound.network = [N.NetworkUDP] ∧
    (sampleUDPProxyInbound.Start goodEnv).adapter.tcpListener = none ∧
    (sampleUDPProxyInbound.Start goodEnv).launched = [Loop.loopUDPIn, Loop.loopUDPOut] ∧
    (sampleUDPProxyInbound.Start goodEnv).result = StartResult.nilListenerPanic := by
  decide

/-! ## createMetadata -/

/-- C6: the metadata `createMetadata` returns carries the adapter's tag and protocol
and the three listen options; its source is the input source when that was valid and
the connection's remote address otherwise; its destination is the input destination
when that was valid and the connection's local address otherwise. -/
theorem C6_createMetadata_fields (a : myInboundAdapter) (conn : Conn)
    (metadata : InboundContext) :
    (a.createMetadata conn metadata).Inbound = a.tag ∧
    (a.createMetadata conn metadata).InboundType = a.protocol ∧
    (a.createMetadata conn metadata).SniffEnabled = a.listenOptions.SniffEnabled ∧
    (a.createMetadata conn metadata).SniffOverrideDestination =
      a.listenOptions.SniffOverrideDestination ∧
    (a.createMetadata conn metadata).DomainStrategy = a.listenOptions.DomainStrategy ∧
    (a.createMetadata conn metadata).Source =
      (if metadata.Source.IsValid then metadata.Source
       else SocksaddrFromNet conn.RemoteAddr) ∧
    (a.createMetadata conn metadata).Destination =
      (if metadata.Destination.IsValid then metadata.Destination
       else SocksaddrFromNet conn.LocalAddr) := by
  unfold myInboundAdapter.createMetadata
  cases hs : metadata.Source.IsValid <;> cases hd : metadata.Destination.IsValid <;>
    cases hc : castTCPConn conn <;> simp [hs, hd]

/-- What `createMetadata` does to `OriginDestination`: it writes the field exactly
when the connection casts to `*net.TCPConn`, with the local address of the TCP
connection found; otherwise the field keeps the value of the input metadata. -/
theorem createMetadata_originDestination (a : myInboundAdapter) (conn : Conn)
    (metadata : InboundContext) :
    (a.createMetadata conn metadata).OriginDestination =
      (match castTCPConn conn with
       | some tcpConn => SocksaddrFromNet tcpConn.LocalAddr
       | none => metadata.OriginDestination) := by
  unfold myInboundAdapter.createMetadata
  cases hs : metadata.Source.IsValid <;> cases hd : metadata.Destination.IsValid <;>
    cases hc : castTCPConn conn <;> simp [hs, hd]

/-- A connection accepted from a TCP listener, raw or behind any number of
PROXY-protocol wrappers, casts to the `*net.TCPConn` of the underlying socket. -/
theorem castTCPConn_of_Accept (lst : Listener) (localAddr remoteAddr : NetAddr)
    (header : ProxyHeader) (conn : Conn)
    (hacc : lst.Accept localAddr remoteAddr header = some conn) :
    castTCPConn conn = some (Conn.tcp localAddr remoteAddr) := by
  induction lst generalizing conn with
  | nilTCP => simp [Listener.Accept] at hacc
  | tcp addr =>
    simp only [Listener.Accept, Option.some.injEq] at hacc
    subst hacc
    rfl
  | proxyproto inner ih =>
    cases hin : Listener.Accept localAddr remoteAddr header inner with
    | none => simp [Listener.Accept, hin] at hacc
    | some c =>
      simp only [Listener.Accept, hin, Option.map_some', Option.some.injEq] at hacc
      subst hacc
      simpa [proxyproto.wrapConn, castTCPConn] using ih c hin

/-- C7: for every connection accepted from the TCP listener, raw or through the
PROXY-protocol wrapper `ListenTCP` installs, whose underlying socket has a local
address, the metadata `createMetadata` builds has `OriginDestination` equal to that
local address, and valid, whatever the input metadata held. -/
theorem C7_accepted_conn_origin_destination (a : myInboundAdapter) (lst : Listener)
    (localAddr remoteAddr : NetAddr) (header : ProxyHeader) (conn : Conn)
    (metadata : InboundContext) (ap : AddrPort)
    (hacc : lst.Accept localAddr remoteAddr header = some conn)
    (hlocal : localAddr = some ap) :
    (a.createMetadata conn metadata).OriginDestination = SocksaddrFromNet localAddr ∧
    (a.createMetadata conn metadata).OriginDestination.IsValid = true := by
  have hod := createMetadata_originDestination a conn metadata
  rw [castTCPConn_of_Accept lst localAddr remoteAddr header conn hacc] at hod
  simp only [Conn.LocalAddr] at hod
  refine ⟨hod, ?_⟩
  rw [hod, hlocal]
  simp [SocksaddrFromNet, Socksaddr.IsValid]

/-- Witness of C7: the listener `ListenTCP` installs for the sample inbound with the
PROXY protocol on is the wrapper; the connection accepted through it is not a
`*net.TCPConn`, answers `RemoteAddr` with the header's address, and gets the local
address of the underlying socket as a valid `OriginDestination`. -/
theorem C7_accepted_conn_origin_destination_witness :
    (sampleProxyProtocolInbound.ListenTCP goodEnv).1.tcpListener =
      some (Listener.proxyproto (Listener.tcp { ip := 127, port := 11080 })) ∧
    (Listener.proxyproto (Listener.tcp { ip := 127, port := 11080 })).Accept
        (some { ip := 127, port := 11080 }) (some { ip := 10, port := 40000 }) sampleHeader =
      some (Conn.layered (some { ip := 127, port := 11080 }) (some { ip := 192, port := 1234 })
        (Conn.tcp (some { ip := 127, port := 11080 }) (some { ip := 10, port := 40000 }))) ∧
    (sampleProxyProtocolInbound.createMetadata
        (Conn.layered (some { ip := 127, port := 11080 }) (some { ip := 192, port := 1234 })
          (Conn.tcp (some { ip := 127, port := 11080 }) (some { ip := 10, port := 40000 })))
        InboundContext.zero).OriginDestination =
      SocksaddrFromNet (some { ip := 127, port := 11080 }) ∧
    (sampleProxyProtocolInbound.createMetadata
        (Conn.layered (some { ip := 127, port := 11080 }) (some { ip := 192, port := 1234 })
          (Conn.tcp (some { ip := 127, port := 11080 }) (some { ip := 10, port := 40000 })))
        InboundContext.zero).OriginDestination.IsValid = true :=
  ⟨by decide, by decide,
   (C7_accepted_conn_origin_destination sampleProxyProtocolInbound
      (Listener.proxyproto (Listener.tcp { ip := 127, port := 11080 }))
      (some { ip := 127, port := 11080 }) (some { ip := 10, port := 40000 }) sampleHeader _
      InboundContext.zero { ip := 127, port := 11080 } rfl rfl).1,
   (C7_accepted_conn_origin_destination sampleProxyProtocolInbound
      (Listener.proxyproto (Listener.tcp { ip := 127, port := 11080 }))
      (some { ip := 127, port := 11080 }) (some { ip := 10, port := 40000 }) sampleHeader _
      InboundContext.zero { ip := 127, port := 11080 } rfl rfl).2⟩

/-! ## Write-back path -/

/-- The deferred release: every path of `writePacket` releases the buffer, once. -/
theorem writePacket_released (calls : WriteCalls) (buffer : Nat) (destination : Socksaddr) :
    (myInboundAdapter.writePacket calls buffer destination).released = [buffer] := rfl

/-- A move of the system that starts outside the outer `select` issues no send, stays
outside the outer `select`, and moves buffers only from the queue to the releases. -/
theorem WriteBack.step_after_closed (ev : SysEvent) (s t : WriteBack)
    (hphase : s.phase ≠ OutPhase.selecting) (hstep : WriteBack.step ev s = some t) :
    t.sends = s.sends ∧ t.phase ≠ OutPhase.selecting ∧
    t.released ++ t.packetOutbound.map (fun p => p.buffer) =
      s.released ++ s.packetOutbound.map (fun p => p.buffer) ++ offeredBuffers [ev] := by
  cases ev with
  | offer packet =>
    simp only [WriteBack.step, Option.some.injEq] at hstep
    subst hstep
    simp [offeredBuffers, hphase]
  | closeSignal =>
    simp only [WriteBack.step, Option.some.injEq] at hstep
    subst hstep
    simp [offeredBuffers, hphase]
  | loop ev =>
    cases hp : s.phase with
    | selecting => exact absurd hp hphase
    | returned =>
      cases ev <;> simp [WriteBack.step, myInboundAdapter.loopUDPOut.step, hp] at hstep
    | draining =>
      cases ev with
      | recv calls => simp [WriteBack.step, myInboundAdapter.loopUDPOut.step, hp] at hstep
      | closed => simp [WriteBack.step, myInboundAdapter.loopUDPOut.step, hp] at hstep
      | drain =>
        cases hq : s.packetOutbound with
        | nil =>
          simp only [WriteBack.step, myInboundAdapter.loopUDPOut.step, hp, hq,
            Option.some.injEq] at hstep
          subst hstep
          simp [offeredBuffers, hq]
        | cons packet rest =>
          simp only [WriteBack.step, myInboundAdapter.loopUDPOut.step, hp, hq,
            Option.some.injEq] at hstep
          subst hstep
          simp [offeredBuffers]

/-- The offered buffers of a sequence of moves, move by move. -/
theorem offeredBuffers_cons (ev : SysEvent) (evs : List SysEvent) :
    offeredBuffers (ev :: evs) = offeredBuffers [ev] ++ offeredBuffers evs := by
  cases ev <;> simp [offeredBuffers]

/-- The same over any sequence of moves of the system. -/
theorem WriteBack.run_after_closed (evs : List SysEvent) (s t : WriteBack)
    (hphase : s.phase ≠ OutPhase.selecting) (hrun : WriteBack.run evs s = some t) :
    t.sends = s.sends ∧ t.phase ≠ OutPhase.selecting ∧
    t.released ++ t.packetOutbound.map (fun p => p.buffer) =
      s.released ++ s.packetOutbound.map (fun p => p.buffer) ++ offeredBuffers evs := by
  induction evs generalizing s with
  | nil =>
    simp only [WriteBack.run, Option.some.injEq] at hrun
    subst hrun
    simp [offeredBuffers, hphase]
  | cons ev evs ih =>
    cases hs : WriteBack.step ev s with
    | none => simp [WriteBack.run, hs] at hrun
    | some m =>
      simp only [WriteBack.run, hs] at hrun
      obtain ⟨h1, h2, h3⟩ := WriteBack.step_after_closed ev s m hphase hs
      obtain ⟨k1, k2, k3⟩ := ih m h2 hrun
      refine ⟨k1.trans h1, k2, ?_⟩
      rw [k3, h3, offeredBuffers_cons ev evs]
      simp [List.append_assoc]

/-- With no producer interfering, the inner loop releases the whole queue in order
and returns. -/
theorem WriteBack.drain_all (q : List myInboundPacket) (s : WriteBack)
    (hphase : s.phase = OutPhase.draining) (hq : s.packetOutbound = q) :
    WriteBack.run (List.replicate (q.length + 1) (SysEvent.loop OutEvent.drain)) s =
      some { s with packetOutbound := [], phase := OutPhase.returned,
                    released := s.released ++ q.map (fun p => p.buffer) } := by
  induction q generalizing s with
  | nil =>
    simp [WriteBack.run, WriteBack.step, myInboundAdapter.loopUDPOut.step, hphase, hq,
      List.replicate]
  | cons packet rest ih =>
    have hstep : WriteBack.step (SysEvent.loop OutEvent.drain) s =
        some { s with packetOutbound := rest, released := s.released ++ [packet.buffer] } := by
      simp [WriteBack.step, myInboundAdapter.loopUDPOut.step, hphase, hq]
    rw [List.length_cons, List.replicate_succ, WriteBack.run, hstep]
    simp only
    rw [ih { s with packetOutbound := rest, released := s.released ++ [packet.buffer] }
      hphase rfl]
    simp [List.append_assoc]

/-- The receive branch of the outer `select`, spelled out. -/
theorem loopUDPOut_step_recv (s : WriteBack) (calls : WriteCalls)
    (packet : myInboundPacket) (rest : List myInboundPacket)
    (hphase : s.phase = OutPhase.selecting) (hq : s.packetOutbound = packet :: rest) :
    myInboundAdapter.loopUDPOut.step (OutEvent.recv calls) s =
      some { s with
        packetOutbound := rest,
        sends := s.sends ++
          (myInboundAdapter.writePacket calls packet.buffer packet.destination).sends,
        released := s.released ++ [packet.buffer],
        log := s.log ++
          (match (myInboundAdapter.writePacket calls packet.buffer packet.destination).err with
           | some err =>
             if !E.IsClosed err then
               myInboundAdapter.newError (E.New ("write back udp: " ++ err.msg))
             else []
           | none => []) } := by
  simp only [myInboundAdapter.loopUDPOut.step, hphase, hq, writePacket_released]

/-- C2: an envelope received at the outer `select` (before the close branch is taken)
goes through `writePacket`, which releases its buffer exactly once on each path: the
resolution of a domain name fails (no send, the error is returned), or one send is
issued and its outcome, failure or success, is returned. Whatever is returned, the
loop is back at the outer `select` with the remaining envelopes, the next of which it
can receive. -/
theorem C2_writePacket_releases_once_and_loop_continues (s : WriteBack) (calls : WriteCalls)
    (packet : myInboundPacket) (rest : List myInboundPacket)
    (hphase : s.phase = OutPhase.selecting) (hq : s.packetOutbound = packet :: rest) :
    (myInboundAdapter.writePacket calls packet.buffer packet.destination).released
      = [packet.buffer] ∧
    (∀ err, packet.destination.IsFqdn = true → calls.resolve = .error err →
      (myInboundAdapter.writePacket calls packet.buffer packet.destination).sends = [] ∧
      (myInboundAdapter.writePacket calls packet.buffer packet.destination).err = some err) ∧
    (∀ udpAddr, packet.destination.IsFqdn = true → calls.resolve = .ok udpAddr →
      (myInboundAdapter.writePacket calls packet.buffer packet.destination).sends
        = [{ buffer := packet.buffer, target := udpAddr }] ∧
      (myInboundAdapter.writePacket calls packet.buffer packet.destination).err = calls.send) ∧
    (packet.destination.IsFqdn = false →
      (myInboundAdapter.writePacket calls packet.buffer packet.destination).sends
        = [{ buffer := packet.buffer, target := packet.destination.AddrPort }] ∧
      (myInboundAdapter.writePacket calls packet.buffer packet.destination).err = calls.send) ∧
    (∃ t, myInboundAdapter.loopUDPOut.step (OutEvent.recv calls) s = some t ∧
      t.phase = OutPhase.selecting ∧ t.packetOutbound = rest ∧
      t.released = s.released ++ [packet.buffer] ∧
      t.sends = s.sends ++
        (myInboundAdapter.writePacket calls packet.buffer packet.destination).sends ∧
      (∀ calls2, rest ≠ [] →
        (myInboundAdapter.loopUDPOut.step (OutEvent.recv calls2) t).isSome = true)) := by
  refine ⟨rfl, ?_, ?_, ?_, ?_⟩
  · intro err hf hr
    simp [myInboundAdapter.writePacket, hf, hr]
  · intro udpAddr hf hr
    simp [myInboundAdapter.writePacket, hf, hr]
  · intro hf
    simp [myInboundAdapter.writePacket, hf]
  · have hstep := loopUDPOut_step_recv s calls packet rest hphase hq
    refine ⟨_, hstep, hphase, rfl, rfl, rfl, ?_⟩
    intro calls2 hne
    cases rest with
    | nil => exact absurd rfl hne
    | cons p2 rest2 => simp [myInboundAdapter.loopUDPOut.step, hphase]

/-- Witness of C2: the first envelope of the sample state, whose domain name fails to
resolve; buffer 1 is released, nothing is sent, the loop stays at the outer `select`. -/
theorem C2_writePacket_releases_once_and_loop_continues_witness :
    (myInboundAdapter.writePacket resolveFails 1 sampleFqdnDestination).released = [1] ∧
    (∃ t, myInboundAdapter.loopUDPOut.step (OutEvent.recv resolveFails) sampleSelecting
        = some t ∧
      t.phase = OutPhase.selecting ∧ t.released = [1] ∧ t.sends = []) := by
  have h := C2_writePacket_releases_once_and_loop_continues sampleSelecting resolveFails
    { buffer := 1, destination := sampleFqdnDestination }
    [{ buffer := 2, destination := sampleIPDestination }] rfl rfl
  obtain ⟨h1, _, _, _, t, ht, hp, _, hr, hs, _⟩ := h
  exact ⟨h1, t, ht, hp, hr, hs⟩

/-- C3: from a state at the outer `select` with the close signal fired, taking the
`packetOutboundClosed` branch puts the loop in its inner `select`. From there the
only move of the loop is the inner `select`, which releases the buffer of the first
available envelope without sending it, or returns when none is available; over every
sequence of moves of the loop, of producers and of the closing receive loop, the sends
stay what they were and the buffers released are, in order, those of the envelopes
taken from the queue, each once; with no further offers the loop releases the whole
queue and returns. -/
theorem C3_no_send_after_closed (s : WriteBack)
    (hphase : s.phase = OutPhase.selecting) (hclosed : s.packetOutboundClosed = true) :
    myInboundAdapter.loopUDPOut.step OutEvent.closed s
      = some { s with phase := OutPhase.draining } ∧
    (∀ d : WriteBack, d.phase = OutPhase.draining →
      (∀ calls, myInboundAdapter.loopUDPOut.step (OutEvent.recv calls) d = none) ∧
      myInboundAdapter.loopUDPOut.step OutEvent.closed d = none ∧
      (∀ packet rest, d.packetOutbound = packet :: rest →
        myInboundAdapter.loopUDPOut.step OutEvent.drain d =
          some { d with packetOutbound := rest,
                        released := d.released ++ [packet.buffer] }) ∧
      (d.packetOutbound = [] →
        myInboundAdapter.loopUDPOut.step OutEvent.drain d =
          some { d with phase := OutPhase.returned })) ∧
    (∀ evs t, WriteBack.run evs { s with phase := OutPhase.draining } = some t →
      t.sends = s.sends ∧ t.phase ≠ OutPhase.selecting ∧
      t.released ++ t.packetOutbound.map (fun p => p.buffer) =
        s.released ++ s.packetOutbound.map (fun p => p.buffer) ++ offeredBuffers evs) ∧
    WriteBack.run
        (List.replicate (s.packetOutbound.length + 1) (SysEvent.loop OutEvent.drain))
        { s with phase := OutPhase.draining } =
      some { s with packetOutbound := [], phase := OutPhase.returned,
                    released := s.released ++ s.packetOutbound.map (fun p => p.buffer) } := by
  refine ⟨by simp [myInboundAdapter.loopUDPOut.step, hphase, hclosed], ?_, ?_, ?_⟩
  · intro d hd
    refine ⟨fun calls => by simp [myInboundAdapter.loopUDPOut.step, hd],
      by simp [myInboundAdapter.loopUDPOut.step, hd], ?_, ?_⟩
    · intro packet rest hq
      simp [myInboundAdapter.loopUDPOut.step, hd, hq]
    · intro hq
      simp [myInboundAdapter.loopUDPOut.step, hd, hq]
  · intro evs t hrun
    exact WriteBack.run_after_closed evs { s with phase := OutPhase.draining } t
      (by simp) hrun
  · exact WriteBack.drain_all s.packetOutbound { s with phase := OutPhase.draining } rfl rfl

/-- Witness of C3: the sample state with the close signal fired; the two queued
buffers are released in order, nothing is sent, the loop returns. -/
theorem C3_no_send_after_closed_witness :
    WriteBack.run (List.replicate 3 (SysEvent.loop OutEvent.drain))
        { sampleClosed with phase := OutPhase.draining } =
      some { sampleClosed with packetOutbound := [], phase := OutPhase.returned,
                               released := [1, 2] } :=
  (C3_no_send_after_closed sampleClosed rfl rfl).2.2.2

/-- C4: when `packetOutboundClosed` has fired, `WritePacket` returns `os.ErrClosed`
and leaves the state as it was: nothing enqueued, nothing released. When it has not
fired, `WritePacket` returns nil and the queue is the old queue followed by the one
envelope carrying the buffer and the destination; nothing is released or sent. -/
theorem C4_WritePacket (s : WriteBack) (buffer : Nat) (destination : Socksaddr) :
    (s.packetOutboundClosed = true →
      myInboundPacketAdapter.WritePacket s buffer destination = (s, some osErrClosed)) ∧
    (s.packetOutboundClosed = false →
      (myInboundPacketAdapter.WritePacket s buffer destination).2 = none ∧
      (myInboundPacketAdapter.WritePacket s buffer destination).1.packetOutbound =
        s.packetOutbound ++ [{ buffer := buffer, destination := destination }] ∧
      (myInboundPacketAdapter.WritePacket s buffer destination).1.released = s.released ∧
      (myInboundPacketAdapter.WritePacket s buffer destination).1.sends = s.sends ∧
      (myInboundPacketAdapter.WritePacket s buffer destination).1.packetOutboundClosed
        = false) := by
  constructor
  · intro h
    simp [myInboundPacketAdapter.WritePacket, h]
  · intro h
    simp [myInboundPacketAdapter.WritePacket, h]

/-- Witness of C4: on the closed sample state the write is refused and the state is
untouched; on the open sample state buffer 9 is enqueued behind the two envelopes. -/
theorem C4_WritePacket_witness :
    myInboundPacketAdapter.WritePacket sampleClosed 9 sampleIPDestination
      = (sampleClosed, some osErrClosed) ∧
    (myInboundPacketAdapter.WritePacket sampleSelecting 9 sampleIPDestination).2 = none ∧
    (myInboundPacketAdapter.WritePacket sampleSelecting 9 sampleIPDestination).1.packetOutbound
      = sampleSelecting.packetOutbound ++ [{ buffer := 9, destination := sampleIPDestination }] :=
  ⟨(C4_WritePacket sampleClosed 9 sampleIPDestination).1 rfl,
   ((C4_WritePacket sampleSelecting 9 sampleIPDestination).2 rfl).1,
   ((C4_WritePacket sampleSelecting 9 sampleIPDestination).2 rfl).2.1⟩

/-! ## Receive loops -/

/-- A run of `loopUDPIn` releases the pooled buffer when it returns, and only then;
it returns exactly when one of the reads it was given failed. -/
theorem loopUDPIn_released (a : myInboundAdapter) (buffer : Nat) (rounds : List Round) :
    (myInboundAdapter.loopUDPIn a buffer rounds).released =
      (if rounds.any (fun r => r.read.failed) then [buffer] else []) ∧
    (myInboundAdapter.loopUDPIn a buffer rounds).exited =
      rounds.any (fun r => r.read.failed) := by
  induction rounds with
  | nil => simp [myInboundAdapter.loopUDPIn, LoopTrace.waiting]
  | cons r rs ih =>
    obtain ⟨read, handler⟩ := r
    cases read with
    | error e =>
      simp [myInboundAdapter.loopUDPIn, myInboundAdapter.loopUDPIn.iteration,
        IterEffect.andThen, LoopTrace.pooledExit, ReadResult.failed]
    | ok n addr =>
      cases handler <;>
        simp [myInboundAdapter.loopUDPIn, myInboundAdapter.loopUDPIn.iteration,
          IterEffect.andThen, ReadResult.failed, ih]

/-- A run of `loopUDPOOBIn` releases the pooled buffer when it returns, and only then;
it returns exactly when one of the reads it was given failed. -/
theorem loopUDPOOBIn_released (a : myInboundAdapter) (buffer : Nat)
    (rounds : List OOBRound) :
    (myInboundAdapter.loopUDPOOBIn a buffer rounds).released =
      (if rounds.any (fun r => r.read.failed) then [buffer] else []) ∧
    (myInboundAdapter.loopUDPOOBIn a buffer rounds).exited =
      rounds.any (fun r => r.read.failed) := by
  induction rounds with
  | nil => simp [myInboundAdapter.loopUDPOOBIn, LoopTrace.waiting]
  | cons r rs ih =>
    obtain ⟨read, handler⟩ := r
    cases read with
    | error e =>
      simp [myInboundAdapter.loopUDPOOBIn, myInboundAdapter.loopUDPOOBIn.iteration,
        IterEffect.andThen, LoopTrace.pooledExit, ReadMsgResult.failed]
    | ok n oobN addr =>
      cases handler <;>
        simp [myInboundAdapter.loopUDPOOBIn, myInboundAdapter.loopUDPOOBIn.iteration,
          IterEffect.andThen, ReadMsgResult.failed, ih]

/-- C5: in one pass of a per-packet loop the fresh buffer is released, once, exactly
when the read fails or the handler returns an error; when the handler succeeds the
buffer was handed over and is not released. In one pass of a pooled loop nothing is
released, whatever the read and the handler return; over a whole run the pooled
buffer is released once, when the loop returns, and the loop returns exactly when a
read fails. -/
theorem C5_receive_loop_buffer_release (a : myInboundAdapter) (buffer : Nat)
    (r : Round) (ro : OOBRound) (rounds : List Round) (oobRounds : List OOBRound) :
    (myInboundAdapter.loopUDPInThreadSafe.iteration a buffer r).released =
      (if r.read.failed || r.handler.isSome then [buffer] else []) ∧
    (myInboundAdapter.loopUDPInThreadSafe.iteration a buffer r).handed.map (fun h => h.buffer) =
      (if r.read.failed then [] else [buffer]) ∧
    (myInboundAdapter.loopUDPOOBInThreadSafe.iteration a buffer ro).released =
      (if ro.read.failed || ro.handler.isSome then [buffer] else []) ∧
    (myInboundAdapter.loopUDPOOBInThreadSafe.iteration a buffer ro).handed.map
        (fun h => h.buffer) =
      (if ro.read.failed then [] else [buffer]) ∧
    (myInboundAdapter.loopUDPIn.iteration a buffer r).released = [] ∧
    (myInboundAdapter.loopUDPOOBIn.iteration a buffer ro).released = [] ∧
    (myInboundAdapter.loopUDPIn a buffer rounds).released =
      (if (myInboundAdapter.loopUDPIn a buffer rounds).exited then [buffer] else []) ∧
    (myInboundAdapter.loopUDPIn a buffer rounds).exited =
      rounds.any (fun r => r.read.failed) ∧
    (myInboundAdapter.loopUDPOOBIn a buffer oobRounds).released =
      (if (myInboundAdapter.loopUDPOOBIn a buffer oobRounds).exited then [buffer] else []) ∧
    (myInboundAdapter.loopUDPOOBIn a buffer oobRounds).exited =
      oobRounds.any (fun r => r.read.failed) := by
  obtain ⟨read, handler⟩ := r
  obtain ⟨oread, ohandler⟩ := ro
  have h1 := loopUDPIn_released a buffer rounds
  have h2 := loopUDPOOBIn_released a buffer oobRounds
  refine ⟨?_, ?_, ?_, ?_, ?_, ?_, ?_, h1.2, ?_, h2.2⟩
  · cases read <;> cases handler <;>
      simp [myInboundAdapter.loopUDPInThreadSafe.iteration, ReadResult.failed]
  · cases read <;> cases handler <;>
      simp [myInboundAdapter.loopUDPInThreadSafe.iteration, ReadResult.failed]
  · cases oread <;> cases ohandler <;>
      simp [myInboundAdapter.loopUDPOOBInThreadSafe.iteration, ReadMsgResult.failed]
  · cases oread <;> cases ohandler <;>
      simp [myInboundAdapter.loopUDPOOBInThreadSafe.iteration, ReadMsgResult.failed]
  · cases read <;> cases handler <;> simp [myInboundAdapter.loopUDPIn.iteration]
  · cases oread <;> cases ohandler <;> simp [myInboundAdapter.loopUDPOOBIn.iteration]
  · rw [h1.2]; exact h1.1
  · rw [h2.2]; exact h2.1


/-! ## Service.Close -/

/-- The calls recorded by closing the inbounds one after the other. -/
theorem foldl_inbound_calls (inbounds : List Closer) (init : List String) :
    inbounds.foldl (fun calls inb => calls ++ [inb.name]) init =
      init ++ inbounds.map (fun inb => inb.name) := by
  induction inbounds generalizing init with
  | nil => simp
  | cons inb rest ih => simp [ih, List.append_assoc]

/-- The calls recorded by `common.Close(out)` on the outbounds one after the other. -/
theorem foldl_outbound_calls (outbounds : List (Option Closer)) (init : List String) :
    outbounds.foldl (fun calls out => calls ++ (common.Close [out]).1) init =
      init ++ (outbounds.filterMap id).map (fun c => c.name) := by
  induction outbounds generalizing init with
  | nil => simp
  | cons out rest ih =>
    rw [List.foldl_cons, ih]
    cases out <;> simp [common.Close]

/-- C8, as stated, fails: the close of the one inbound of the sample service fails,
every close is still attempted, and `Service.Close` returns nil. -/
theorem C8_inbound_close_error_dropped :
    sampleService.inbounds.map (fun inb => inb.closeErr.isSome) = [true] ∧
    sampleService.Close = (["inbound[0]", "outbound[0]", "router", "logger"], none) := by
  decide

/-- C8, amended: `Service.Close` calls `Close` on every inbound, on every outbound
that has a `Close`, on the router and on the logger, in that order and whatever the
earlier closes returned; its result is the result of `common.Close(router, logger)`
alone: the logger's error when the logger fails, otherwise the router's, so it is
non-nil exactly when the close of the router or of the logger fails. -/
theorem C8_Service_Close (s : Service) :
    s.Close.1 =
      s.inbounds.map (fun inb => inb.name) ++
      (s.outbounds.filterMap id).map (fun c => c.name) ++
      [s.router.name, s.logger.name] ∧
    s.Close.2 = (common.Close [some s.router, some s.logger]).2 ∧
    s.Close.2 =
      (match s.logger.closeErr with
       | some err => some err
       | none => s.router.closeErr) ∧
    (s.Close.2.isSome = true ↔
      s.router.closeErr.isSome = true ∨ s.logger.closeErr.isSome = true) := by
  refine ⟨?_, rfl, ?_, ?_⟩
  · unfold Service.Close
    simp only [foldl_inbound_calls, foldl_outbound_calls]
    simp [common.Close]
  · cases hl : s.logger.closeErr <;> cases hr : s.router.closeErr <;>
      simp [Service.Close, common.Close, hl, hr]
  · cases hl : s.logger.closeErr <;> cases hr : s.router.closeErr <;>
      simp [Service.Close, common.Close, hl, hr]

/-! ## Error sink -/

/-- C9, as stated, fails. The handler of `loopUDPIn` returns `os.ErrClosed`, a
closed-or-cancelled error; the loop reports it through `newError`, which writes it at
error level. And a write-back whose resolution fails with a cancelled error is
reported by `loopUDPOut` at error level too. -/
theorem C9_closed_packet_error_logged_at_error_level :
    closedHandlerRound.handler = some osErrClosed ∧
    E.IsClosedOrCanceled osErrClosed = true ∧
    (myInboundAdapter.loopUDPIn.iteration sampleUDPInbound 0 closedHandlerRound).log.map
        (fun l => (l.level, E.IsClosedOrCanceled l.err)) = [(LogLevel.error, true)] ∧
    (myInboundAdapter.writePacket resolveCanceled 1 sampleFqdnDestination).err.map
        E.IsClosedOrCanceled = some true ∧
    (myInboundAdapter.loopUDPOut.step (OutEvent.recv resolveCanceled) sampleSelecting).map
        (fun t => t.log.map (fun l => l.level)) = some [LogLevel.error] := by
  decide

/-- C9, amended: a closed-or-cancelled failure of the stream handler, reported by
`injectTCP` or `routeTCP` through `NewError`, is written as one debug line and no
error line; and a write-back failure in `loopUDPOut` that is a closed error is not
logged at all. -/
theorem C9_closed_stream_and_write_back_errors_not_at_error_level (err : GoError)
    (h : E.IsClosedOrCanceled err = true) :
    (∀ (a : myInboundAdapter) (conn : Conn),
      (a.injectTCP conn (some err)).log.map (fun l => l.level) = [LogLevel.debug]) ∧
    (∀ metadata : InboundContext,
      (myInboundAdapter.routeTCP metadata (some err)).log.map (fun l => l.level)
        = [LogLevel.debug]) ∧
    (E.IsClosed err = true →
      ∀ (s : WriteBack) (calls : WriteCalls) (packet : myInboundPacket)
        (rest : List myInboundPacket),
        s.phase = OutPhase.selecting → s.packetOutbound = packet :: rest →
        (myInboundAdapter.writePacket calls packet.buffer packet.destination).err = some err →
        ∃ t, myInboundAdapter.loopUDPOut.step (OutEvent.recv calls) s = some t ∧
          t.log = s.log) := by
  have hc : ∀ m, E.IsClosedOrCanceled (E.Cause err m) = true := fun m => h
  refine ⟨?_, ?_, ?_⟩
  · intro a conn
    simp [myInboundAdapter.injectTCP, NewError, hc]
  · intro metadata
    simp [myInboundAdapter.routeTCP, NewError, hc]
  · intro hcl s calls packet rest hphase hq herr
    refine ⟨_, loopUDPOut_step_recv s calls packet rest hphase hq, ?_⟩
    simp [herr, hcl]

/-- Witness of C9 amended: `os.ErrClosed` from the stream handler of the sample
inbound is logged at debug level; as a send failure in the write-back loop it is not
logged. -/
theorem C9_closed_stream_and_write_back_errors_not_at_error_level_witness :
    E.IsClosedOrCanceled osErrClosed = true ∧
    (sampleUDPInbound.injectTCP sampleTCPConn (some osErrClosed)).log.map
        (fun l => l.level) = [LogLevel.debug] ∧
    (∃ t, myInboundAdapter.loopUDPOut.step
        (OutEvent.recv { resolve := .ok { ip := 10, port := 53 }, send := some osErrClosed })
        sampleSelecting = some t ∧ t.log = sampleSelecting.log) :=
  ⟨by decide,
   (C9_closed_stream_and_write_back_errors_not_at_error_level osErrClosed (by decide)).1
     sampleUDPInbound sampleTCPConn,
   (C9_closed_stream_and_write_back_errors_not_at_error_level osErrClosed (by decide)).2.2
     (by decide) sampleSelecting
     { resolve := .ok { ip := 10, port := 53 }, send := some osErrClosed }
     { buffer := 1, destination := sampleFqdnDestination }
     [{ buffer := 2, destination := sampleIPDestination }] rfl rfl rfl⟩

end SingBox
